import Mathlib

/-!
Verification of the client-side session lifecycle of the BlogSpace blog
application. The definitions below are a shallow embedding of:

* the axios instance and its request/response interceptors in
  blog_frontend/src/services/api.js (token attachment and the 401
  refresh-and-replay handler);
* the AuthProvider in blog_frontend/src/components/PostCard.js
  (initial session restoration, login, register, logout);
* the comment submission handler of the PostDetail page.

localStorage is modelled as a record of the three keys the code uses
(access_token, refresh_token, user); the remote server is modelled as an
oracle mapping each attempt of a request, and each refresh call, to a
response. JavaScript truthiness of strings (the empty string is falsy) is
modelled explicitly where the code branches on it.
-/

namespace Blog

/-- The persisted session: the three localStorage keys used by the code,
access_token, refresh_token and user (the serialized user record). A key
that was never set or was removed is none. -/
structure Store where
  access : Option String
  refresh : Option String
  user : Option String
deriving Repr, DecidableEq

/-- The store with no key set (all fields removed). -/
def Store.empty : Store := ⟨none, none, none⟩

/-- Result of one HTTP exchange as seen by the axios response interceptor:
a resolved response, an error carrying a response with a status code, or an
error with no response (network failure). -/
inductive HttpResult where
  | success (body : String)
  | httpError (status : Nat)
  | networkError
deriving Repr, DecidableEq

/-- Outcome delivered to the caller of an api request: the resolved body,
a rejection with the original HTTP error status, or a rejection with a
non-HTTP (network) error. -/
inductive Outcome where
  | ok (body : String)
  | rejected (status : Nat)
  | rejectedNetwork
deriving Repr, DecidableEq

/-- The remote server as an oracle: reqResp gives the response to the n-th
issuance of the original request (with the Authorization header attached to
it), refreshResp gives the result of the n-th POST to
/auth/token/refresh/ (some newAccessToken on success, none on failure).
The refresh call goes through a bare axios, not through the intercepted
instance, so it is a single exchange. -/
structure Server where
  reqResp : Nat → Option String → HttpResult
  refreshResp : Nat → String → Option String

/-- Observable trace of one run through the interceptor: how many refresh
calls were issued, the Authorization header of every issuance of the
original request (the head is the initial attempt, the tail the replays),
and whether the browser was redirected to /login. -/
structure Trace where
  refreshCalls : Nat
  attempts : List (Option String)
  redirected : Bool
deriving Repr, DecidableEq

/-- The request interceptor of api.js: it reads access_token from
localStorage and, if the token is truthy (present and nonempty), overwrites
the Authorization header of the config with the Bearer token; otherwise the
config header is left as it is. -/
def attachAuth (st : Store) (cfgAuth : Option String) : Option String :=
  match st.access with
  | some t => if t = "" then cfgAuth else some ("Bearer " ++ t)
  | none => cfgAuth

/-- Store update of the refresh success branch of the response
interceptor: localStorage.setItem writes the new access token; the other
keys are untouched. -/
def refreshSuccessStore (st : Store) (newAccess : String) : Store :=
  { st with access := some newAccess }

/-- Store update of the refresh failure branch of the response
interceptor: localStorage.removeItem is called for access_token and
refresh_token. The user key is not removed by this branch. -/
def refreshFailureStore (st : Store) : Store :=
  { st with access := none, refresh := none }

/-- One run of an api request through both interceptors of api.js,
mirrored step by step. At each issuance the request interceptor computes
the Authorization header from the store; then the response is taken from
the server oracle. A 401 with a truthy refresh_token triggers a refresh
call; on refresh success the new token is persisted, the config header is
set to the new Bearer token and the request is re-issued through
api.request, which re-enters this same interceptor pipeline (hence the
recursion); on refresh failure both tokens are removed, the browser is
redirected and the original error is rejected. Every other error, and a
401 without a truthy refresh_token, is rejected unchanged. fuel bounds the
number of pipeline iterations; none means the run did not complete within
the given fuel. -/
def runAux (srv : Server) : Nat → Store → Option String → Nat → Nat → Trace →
    Option (Outcome × Store × Trace)
  | 0, _, _, _, _, _ => none
  | fuel + 1, st, cfgAuth, ra, fa, tr =>
    let auth := attachAuth st cfgAuth
    let tr := { tr with attempts := tr.attempts ++ [auth] }
    match srv.reqResp ra auth with
    | .success b => some (.ok b, st, tr)
    | .networkError => some (.rejectedNetwork, st, tr)
    | .httpError s =>
      if s = 401 then
        match st.refresh with
        | some rt =>
          if rt = "" then some (.rejected 401, st, tr)
          else
            let tr := { tr with refreshCalls := tr.refreshCalls + 1 }
            match srv.refreshResp fa rt with
            | some newAccess =>
              runAux srv fuel (refreshSuccessStore st newAccess)
                (some ("Bearer " ++ newAccess)) (ra + 1) (fa + 1) tr
            | none =>
              some (.rejected 401, refreshFailureStore st,
                { tr with redirected := true })
        | none => some (.rejected 401, st, tr)
      else some (.rejected s, st, tr)

/-- Issue one api request from the given store against the given server,
with an empty initial trace and no preset Authorization header. -/
def runRequest (srv : Server) (fuel : Nat) (st : Store) :
    Option (Outcome × Store × Trace) :=
  runAux srv fuel st none 0 0 ⟨0, [], false⟩

/-- The store after a completed run of an api request; if the run did not
complete within the fuel, the store at the start (used only to compose
sequences of calls). -/
def storeAfterRun (srv : Server) (fuel : Nat) (st : Store) : Store :=
  match runRequest srv fuel st with
  | some (_, st', _) => st'
  | none => st

/-- Body of an HTTP error response as the AuthProvider catch branches read
it: an optional error key, an optional detail key, and the remaining keys
as a field-name-to-message map (the shape DRF validation errors take). -/
structure ErrData where
  errorMsg : Option String
  detail : Option String
  fields : List (String × String)
deriving Repr, DecidableEq

/-- The response attached to an axios error: its data (none when the body
is absent) and its statusText. -/
structure ErrResp where
  data : Option ErrData
  statusText : Option String
deriving Repr, DecidableEq

/-- Response of a login or register call: on success the backend returns
user, access and refresh; on failure the axios error may carry a response
(none models a network error with no response at all). -/
inductive AuthResponse where
  | success (user access refresh : String)
  | failure (err : Option ErrResp)

/-- Error payload of a failed AuthProvider operation: a plain message, or
the raw response data (carrying field-keyed validation errors). -/
inductive AuthError where
  | general (msg : String)
  | data (d : ErrData)
deriving Repr, DecidableEq

/-- Result value returned by the AuthProvider login and register
functions: success true, or success false with an error payload. -/
inductive AuthResult where
  | ok
  | failed (e : AuthError)
deriving Repr, DecidableEq

/-- JavaScript truthiness filter for an optional string operand of the
logical-or chain: an absent value and the empty string are falsy. -/
def jsOrStr : Option String → Option String
  | some s => if s = "" then none else some s
  | none => none

/-- Error message computed by the login catch branch:
error.response?.data?.error, or else error.response?.data?.detail, or else
the literal Login failed. -/
def loginErrorMsg (err : Option ErrResp) : String :=
  (((err.bind (·.data)).bind (fun d => jsOrStr d.errorMsg)).orElse
    (fun _ => (err.bind (·.data)).bind (fun d => jsOrStr d.detail))).getD
    "Login failed"

/-- Error payload computed by the register catch branch:
error.response?.data (the whole body, an object, hence truthy whenever
present), or else error.response?.statusText, or else the literal
Registration failed. -/
def registerError (err : Option ErrResp) : AuthError :=
  match err with
  | none => .general "Registration failed"
  | some r =>
    match r.data with
    | some d => .data d
    | none => .general ((jsOrStr r.statusText).getD "Registration failed")

/-- The AuthProvider login function: on success the three response fields
are written to localStorage and success is returned; on failure nothing is
written and success false with the computed message is returned. -/
def login (st : Store) (resp : AuthResponse) : Store × AuthResult :=
  match resp with
  | .success u a r => (⟨some a, some r, some u⟩, .ok)
  | .failure err => (st, .failed (.general (loginErrorMsg err)))

/-- The AuthProvider register function: same store writes as login on
success; on failure nothing is written and the raw response data (or a
fallback message) is returned. -/
def register (st : Store) (resp : AuthResponse) : Store × AuthResult :=
  match resp with
  | .success u a r => (⟨some a, some r, some u⟩, .ok)
  | .failure err => (st, .failed (registerError err))

/-- The AuthProvider logout function: removeItem for access_token,
refresh_token and user, unconditionally and with no remote call. -/
def logout (_ : Store) : Store := Store.empty

/-- The AuthProvider initialization effect: it reads access_token and
user; when both are truthy it parses the user JSON, and on a parse error
removes all three keys. parseOk models whether JSON.parse of the stored
user string succeeds. In every other case the store is untouched. -/
def initAuthLoad (st : Store) (parseOk : Bool) : Store :=
  match st.access, st.user with
  | some t, some u =>
    if t = "" ∨ u = "" then st
    else if parseOk then st else Store.empty
  | _, _ => st

/-- Invariant stated by the spec for the persisted session: the access
credential and the user record are both present or both absent. -/
def sessionInv (st : Store) : Prop := st.access.isSome ↔ st.user.isSome

instance (st : Store) : Decidable (sessionInv st) := by
  unfold sessionInv; infer_instance

/-- Phase of one in-flight request whose response was a 401, as it moves
through the response interceptor: the error handler has not run yet, the
handler is awaiting its own refresh call, the handler is awaiting the
replay it issued after a successful refresh, or it finished with an
outcome. -/
inductive TaskPhase where
  | got401
  | awaitingRefresh
  | awaitingReplay (newAccess : String)
  | done (o : Outcome)
deriving Repr, DecidableEq

/-- State of the single-threaded event loop with several requests in
flight: the shared localStorage, the phase of each request, and how many
refresh calls have been issued in total. -/
structure ConcSystem where
  store : Store
  tasks : List TaskPhase
  refreshCalls : Nat
deriving Repr, DecidableEq

/-- Scheduler events: the event loop runs the 401 error handler of task i
up to its await on the refresh call; the refresh call of task i resolves
(some newAccess) or rejects (none); the replay of task i resolves with an
outcome. -/
inductive ConcEvent where
  | runHandler (i : Nat)
  | refreshResolved (i : Nat) (res : Option String)
  | replayResolved (i : Nat) (o : Outcome)
deriving Repr, DecidableEq

/-- One scheduler step, mirroring the interceptor of api.js. Running the
handler of a 401 reads refresh_token from the shared store and, whenever
it is truthy, issues a refresh call: the code keeps no flag recording that
another refresh is already in flight, so the store read is the only guard.
Refresh resolution persists the new token (success) or removes both tokens
(failure), exactly as the corresponding branches of the interceptor do.
Events that do not match the phase of their task are ignored. -/
def concStep (sys : ConcSystem) (e : ConcEvent) : ConcSystem :=
  match e with
  | .runHandler i =>
    match sys.tasks[i]? with
    | some .got401 =>
      match sys.store.refresh with
      | some rt =>
        if rt = "" then
          { sys with tasks := sys.tasks.set i (.done (.rejected 401)) }
        else
          { sys with tasks := sys.tasks.set i .awaitingRefresh,
                     refreshCalls := sys.refreshCalls + 1 }
      | none => { sys with tasks := sys.tasks.set i (.done (.rejected 401)) }
    | _ => sys
  | .refreshResolved i res =>
    match sys.tasks[i]? with
    | some .awaitingRefresh =>
      match res with
      | some a => { sys with store := refreshSuccessStore sys.store a,
                             tasks := sys.tasks.set i (.awaitingReplay a) }
      | none => { sys with store := refreshFailureStore sys.store,
                           tasks := sys.tasks.set i (.done (.rejected 401)) }
    | _ => sys
  | .replayResolved i o =>
    match sys.tasks[i]? with
    | some (.awaitingReplay _) => { sys with tasks := sys.tasks.set i (.done o) }
    | _ => sys

/-- Run a schedule of events from a system state. -/
def concRun (sys : ConcSystem) (es : List ConcEvent) : ConcSystem :=
  es.foldl concStep sys

/-- Component state of the PostDetail page that the comment submission
handler touches: the comment list of the loaded post, the comment input
text, the loading flag, and the success and error banners. -/
structure PostDetailState where
  comments : List String
  commentText : String
  commentLoading : Bool
  commentSuccess : String
  error : String
deriving Repr, DecidableEq

/-- JavaScript String.prototype.trim as the comment handler calls it:
strip leading and trailing whitespace characters. -/
def jsTrim (s : String) : String :=
  ⟨((s.data.dropWhile Char.isWhitespace).reverse.dropWhile
    Char.isWhitespace).reverse⟩

/-- The handleCommentSubmit function of the PostDetail page: when the
trimmed input is empty (falsy) it returns before any network call;
otherwise it issues commentsAPI.create and, on success, appends the
response to the comment list, clears the input and sets the success
banner, or, on failure, sets the error banner; the loading flag is reset
in the finally block. The Bool of the result records whether a network
call was made. -/
def handleCommentSubmit (st : PostDetailState) (resp : Except Unit String) :
    PostDetailState × Bool :=
  if jsTrim st.commentText = "" then (st, false)
  else
    match resp with
    | .ok c =>
      ({ st with comments := st.comments ++ [c], commentText := "",
                 commentSuccess := "Comment added successfully!",
                 commentLoading := false }, true)
    | .error _ =>
      ({ st with error := "Failed to add comment. Please try again.",
                 commentLoading := false }, true)

/-- Outcome the interceptor hands back for a response it does not
intercept (anything but a 401): a success resolves with its body, any
other HTTP error is rejected with its status, and an error without a
response is rejected as a network error. -/
def passThroughOutcome : HttpResult → Outcome
  | .success b => .ok b
  | .httpError s => .rejected s
  | .networkError => .rejectedNetwork

/-- Server that answers 401 to the first two issuances of a request and
succeeds on the third; the first refresh call grants token A2 and later
ones A3. -/
def srvDouble401 : Server :=
  ⟨fun n _ => if n ≤ 1 then .httpError 401 else .success "done",
   fun n _ => some (if n = 0 then "A2" else "A3")⟩

/-- Server that answers 401 to every issuance and grants every refresh. -/
def srvLoop : Server :=
  ⟨fun _ _ => .httpError 401, fun _ _ => some "A2"⟩

/-- Server that answers 401 to every issuance and fails every refresh. -/
def srvRefreshFail : Server :=
  ⟨fun _ _ => .httpError 401, fun _ _ => none⟩

/-- Server that answers 401 to the first issuance only and then succeeds;
every refresh grants token A2. -/
def srvOne401 : Server :=
  ⟨fun n _ => if n = 0 then .httpError 401 else .success "body1",
   fun _ _ => some "A2"⟩

/-- Running the interceptor pipeline against srvLoop never completes, for
any fuel, as long as a truthy refresh token is stored: each iteration gets
a 401, refreshes successfully (which keeps the refresh token in place) and
re-issues the request. -/
theorem runAux_srvLoop_none (fuel : Nat) :
    ∀ (st : Store) (cfgAuth : Option String) (ra fa : Nat) (tr : Trace)
      (rt : String), st.refresh = some rt → rt ≠ "" →
      runAux srvLoop fuel st cfgAuth ra fa tr = none := by
  induction fuel with
  | zero => intro st cfgAuth ra fa tr rt h hne; rfl
  | succ n ih =>
    intro st cfgAuth ra fa tr rt h hne
    simp only [runAux, srvLoop, h, if_pos rfl, if_neg hne]
    exact ih _ _ _ _ _ rt (by simp [refreshSuccessStore, h]) hne

/-- Running the 401 handlers of pairwise distinct tasks that are all in
the got401 phase, while a truthy refresh token is stored, issues one
refresh call per handler: the code consults no in-flight-refresh state, so
every handler refreshes on its own. -/
theorem concRun_handlers_refreshCalls (is : List Nat) :
    ∀ (sys : ConcSystem) (rt : String), rt ≠ "" →
      sys.store.refresh = some rt → is.Nodup →
      (∀ i ∈ is, sys.tasks[i]? = some .got401) →
      (concRun sys (is.map ConcEvent.runHandler)).refreshCalls =
        sys.refreshCalls + is.length := by
  induction is with
  | nil => intro sys rt _ _ _ _; simp [concRun]
  | cons i is ih =>
    intro sys rt hne hr hnd hall
    have hi : sys.tasks[i]? = some .got401 := hall i (List.mem_cons_self i is)
    have hni : i ∉ is := (List.nodup_cons.mp hnd).1
    have hstep : concStep sys (.runHandler i) =
        { sys with tasks := sys.tasks.set i .awaitingRefresh,
                   refreshCalls := sys.refreshCalls + 1 } := by
      simp [concStep, hi, hr, hne]
    have h2 := ih { sys with tasks := sys.tasks.set i .awaitingRefresh,
                             refreshCalls := sys.refreshCalls + 1 } rt hne hr
      (List.nodup_cons.mp hnd).2
      (fun j hj => by
        rw [List.getElem?_set_ne (by rintro rfl; exact hni hj)]
        exact hall j (List.mem_cons_of_mem _ hj))
    simp only [List.map_cons, concRun, List.foldl_cons] at h2 ⊢
    rw [hstep, h2, List.length_cons]
    omega

/-- C1 counterexample: two concurrent requests both receive a 401 while a
refresh credential is present, both error handlers run before either
refresh resolves, and two refresh calls are issued in total — not at most
one as the claim states. -/
theorem c1_two_401s_two_refresh_calls :
    (concRun ⟨⟨some "A1", some "R1", some "u"⟩, [.got401, .got401], 0⟩
        [.runHandler 0, .runHandler 1]).refreshCalls = 2 ∧
    ¬ (concRun ⟨⟨some "A1", some "R1", some "u"⟩, [.got401, .got401], 0⟩
        [.runHandler 0, .runHandler 1]).refreshCalls ≤ 1 := by decide

/-- C1 amended: there is no refresh deduplication. Each concurrent request
that receives a 401 while a truthy refresh credential is stored issues its
own refresh call when its handler runs: with n such requests whose
handlers all run before any refresh resolves, n refresh calls are issued
in total. -/
theorem c1_no_refresh_dedup (n : Nat) (a u : Option String) (rt : String)
    (hne : rt ≠ "") :
    (concRun ⟨⟨a, some rt, u⟩, List.replicate n .got401, 0⟩
        ((List.range n).map ConcEvent.runHandler)).refreshCalls = n := by
  have h := concRun_handlers_refreshCalls (List.range n)
    ⟨⟨a, some rt, u⟩, List.replicate n .got401, 0⟩ rt hne rfl
    (List.nodup_range n)
    (fun i hi => List.getElem?_replicate_of_lt (List.mem_range.mp hi))
  simpa using h

/-- C1 amended, witnessed at three concurrent requests: three refresh
calls are issued. -/
theorem c1_no_refresh_dedup_witness :
    ("R1" : String) ≠ "" ∧
    (concRun ⟨⟨some "A1", some "R1", some "u"⟩, List.replicate 3 .got401, 0⟩
        ((List.range 3).map ConcEvent.runHandler)).refreshCalls = 3 :=
  ⟨by decide, c1_no_refresh_dedup 3 (some "A1") (some "u") "R1" (by decide)⟩

/-- C2 counterexample: against srvDouble401 a request gets a 401, the
refresh succeeds, and the replay gets a 401 again; the replay does not
fail immediately — a second refresh call is issued (refreshCalls is 2,
not 1) and the run even ends in success after a second replay. -/
theorem c2_replay_401_triggers_second_refresh :
    runRequest srvDouble401 5 ⟨some "A1", some "R1", some "u"⟩ =
      some (.ok "done", ⟨some "A3", some "R1", some "u"⟩,
        ⟨2, [some "Bearer A1", some "Bearer A2", some "Bearer A3"], false⟩) ∧
    ¬ (runRequest srvDouble401 5 ⟨some "A1", some "R1", some "u"⟩).map
        (fun r => r.2.2.refreshCalls) = some 1 := by decide

/-- C2 amended: the replay re-enters the same interceptor, so the protocol
does recurse: while a truthy refresh credential is stored, a server that
answers 401 to every issuance and grants every refresh makes the run loop
forever (it completes within no fuel bound), issuing a refresh call per
iteration. -/
theorem c2_refresh_replay_can_loop (fuel : Nat) (st : Store) (rt : String)
    (hr : st.refresh = some rt) (hne : rt ≠ "") :
    runRequest srvLoop fuel st = none :=
  runAux_srvLoop_none fuel st none 0 0 ⟨0, [], false⟩ rt hr hne

/-- C2 amended, witnessed at fuel 5 from a full session. -/
theorem c2_refresh_replay_can_loop_witness :
    (⟨some "A1", some "R1", some "u"⟩ : Store).refresh = some "R1" ∧
    ("R1" : String) ≠ "" ∧
    runRequest srvLoop 5 ⟨some "A1", some "R1", some "u"⟩ = none :=
  ⟨rfl, by decide,
    c2_refresh_replay_can_loop 5 ⟨some "A1", some "R1", some "u"⟩ "R1" rfl
      (by decide)⟩

/-- C3 counterexample: when the refresh call fails, the code removes only
access_token and refresh_token; the user key survives (the session does
not hold no field at all), and the caller receives the original 401
rejection. -/
theorem c3_user_not_cleared_on_refresh_failure :
    runRequest srvRefreshFail 2 ⟨some "A1", some "R1", some "u"⟩ =
      some (.rejected 401, ⟨none, none, some "u"⟩,
        ⟨1, [some "Bearer A1"], true⟩) ∧
    ¬ (runRequest srvRefreshFail 2 ⟨some "A1", some "R1", some "u"⟩).map
        (fun r => r.2.1.user) = some none := by decide

/-- C3 amended: for every request whose refresh call fails, the access and
refresh credentials are removed but the user record is kept, the browser
is redirected to the login page, and the caller receives the original 401
rejection. -/
theorem c3_refresh_failure_keeps_user (srv : Server) (st : Store)
    (fuel : Nat) (rt : String) (hr : st.refresh = some rt) (hne : rt ≠ "")
    (h401 : srv.reqResp 0 (attachAuth st none) = .httpError 401)
    (hrf : srv.refreshResp 0 rt = none) :
    runRequest srv (fuel + 1) st =
      some (.rejected 401, ⟨none, none, st.user⟩,
        ⟨1, [attachAuth st none], true⟩) := by
  simp [runRequest, runAux, h401, hr, hne, hrf, refreshFailureStore]

/-- C3 amended, witnessed against srvRefreshFail from a full session. -/
theorem c3_refresh_failure_keeps_user_witness :
    (⟨some "A1", some "R1", some "u"⟩ : Store).refresh = some "R1" ∧
    ("R1" : String) ≠ "" ∧
    srvRefreshFail.reqResp 0
      (attachAuth ⟨some "A1", some "R1", some "u"⟩ none) = .httpError 401 ∧
    srvRefreshFail.refreshResp 0 "R1" = none ∧
    runRequest srvRefreshFail 1 ⟨some "A1", some "R1", some "u"⟩ =
      some (.rejected 401, ⟨none, none, some "u"⟩,
        ⟨1, [attachAuth ⟨some "A1", some "R1", some "u"⟩ none], true⟩) :=
  ⟨rfl, by decide, rfl, rfl,
    c3_refresh_failure_keeps_user srvRefreshFail _ 0 "R1" rfl (by decide) rfl
      rfl⟩

/-- C4 counterexample: from a full session, satisfying the invariant, the
refresh failure branch produces a session with the user record present but
no access credential — the invariant does not hold afterwards. -/
theorem c4_refresh_failure_breaks_invariant :
    sessionInv ⟨some "A1", some "R1", some "u"⟩ ∧
    ¬ sessionInv (refreshFailureStore ⟨some "A1", some "R1", some "u"⟩) := by
  decide

/-- C4 amended: initial load, login, register and logout preserve the
both-present-or-both-absent invariant from every state satisfying it, and
refresh success preserves it from every state holding a user record (in
particular every state a logged-in session refreshes from); refresh
failure does not preserve it: it removes the access credential but keeps
the user record. -/
theorem c4_invariant_preservation_except_refresh_failure (st : Store)
    (b : Bool) (resp : AuthResponse) (a : String) (h : sessionInv st) :
    sessionInv (initAuthLoad st b) ∧ sessionInv (login st resp).1 ∧
    sessionInv (register st resp).1 ∧ sessionInv (logout st) ∧
    (st.user.isSome = true → sessionInv (refreshSuccessStore st a)) ∧
    (refreshFailureStore st).access = none ∧
    (refreshFailureStore st).user = st.user := by
  obtain ⟨acc, ref, us⟩ := st
  refine ⟨?_, ?_, ?_, Iff.rfl, ?_, rfl, rfl⟩
  · cases acc with
    | none => exact h
    | some t =>
      cases us with
      | none => exact h
      | some u =>
        simp only [initAuthLoad]
        split
        · exact h
        · split
          · exact h
          · simp [sessionInv, Store.empty]
  · cases resp with
    | success u a r => simp [login, sessionInv]
    | failure err => exact h
  · cases resp with
    | success u a r => simp [register, sessionInv]
    | failure err => exact h
  · intro hu
    simp [sessionInv, refreshSuccessStore, hu]

/-- C4 amended, witnessed at a full session with a successful login
response. -/
theorem c4_invariant_preservation_witness :
    sessionInv ⟨some "A1", some "R1", some "u"⟩ ∧
    (sessionInv (initAuthLoad ⟨some "A1", some "R1", some "u"⟩ true) ∧
     sessionInv (login ⟨some "A1", some "R1", some "u"⟩
       (.success "u2" "A9" "R9")).1 ∧
     sessionInv (register ⟨some "A1", some "R1", some "u"⟩
       (.success "u2" "A9" "R9")).1 ∧
     sessionInv (logout ⟨some "A1", some "R1", some "u"⟩) ∧
     ((some "u" : Option String).isSome = true →
       sessionInv (refreshSuccessStore ⟨some "A1", some "R1", some "u"⟩
         "A5")) ∧
     (refreshFailureStore ⟨some "A1", some "R1", some "u"⟩).access = none ∧
     (refreshFailureStore ⟨some "A1", some "R1", some "u"⟩).user =
       some "u") :=
  ⟨by decide,
    c4_invariant_preservation_except_refresh_failure
      ⟨some "A1", some "R1", some "u"⟩ true (.success "u2" "A9" "R9") "A5"
      (by decide)⟩

/-- C5: a 401 received while no refresh credential is stored issues no
refresh call (the trace records zero refresh calls), leaves the store
untouched, and rejects with the original 401 error. -/
theorem c5_401_without_refresh_token_rejects (srv : Server) (st : Store)
    (fuel : Nat) (hr : st.refresh = none)
    (h401 : srv.reqResp 0 (attachAuth st none) = .httpError 401) :
    runRequest srv (fuel + 1) st =
      some (.rejected 401, st, ⟨0, [attachAuth st none], false⟩) := by
  simp [runRequest, runAux, h401, hr]

/-- C5, witnessed against srvRefreshFail from a session holding only an
access token and a user record. -/
theorem c5_401_without_refresh_token_rejects_witness :
    (⟨some "A1", none, some "u"⟩ : Store).refresh = none ∧
    srvRefreshFail.reqResp 0
      (attachAuth ⟨some "A1", none, some "u"⟩ none) = .httpError 401 ∧
    runRequest srvRefreshFail 1 ⟨some "A1", none, some "u"⟩ =
      some (.rejected 401, ⟨some "A1", none, some "u"⟩,
        ⟨0, [attachAuth ⟨some "A1", none, some "u"⟩ none], false⟩) :=
  ⟨rfl, rfl,
    c5_401_without_refresh_token_rejects srvRefreshFail
      ⟨some "A1", none, some "u"⟩ 0 rfl rfl⟩

/-- C6 counterexample: against srvDouble401 the original request receives
a 401 with a refresh credential stored and the refresh call succeeds, yet
the original request is issued three times in total (the initial attempt
plus two replays), not replayed exactly once. -/
theorem c6_replay_not_exactly_once :
    srvDouble401.reqResp 0 (some "Bearer A1") = .httpError 401 ∧
    srvDouble401.refreshResp 0 "R1" = some "A2" ∧
    (runRequest srvDouble401 5 ⟨some "A1", some "R1", some "u"⟩).map
      (fun r => r.2.2.attempts.length) = some 3 := by decide

/-- The request interceptor, run on the replay config: the handler has
just persisted the new access token and set the config header to its
Bearer form, so whether the interceptor overwrites the header (token
truthy) or keeps the config header (token the empty string), the header
is the Bearer form of the new token. -/
theorem attachAuth_refreshSuccess (st : Store) (a : String) :
    attachAuth (refreshSuccessStore st a) (some ("Bearer " ++ a)) =
      some ("Bearer " ++ a) := by
  simp [attachAuth, refreshSuccessStore]

/-- C6 amended: when the refresh call succeeds and the replay itself does
not receive another 401, the stored access credential is updated to the
new token, the request is replayed exactly once carrying the new Bearer
token, and the replay result — a resolved body, another HTTP error, or a
network error — is returned to the caller unchanged; a replay that again
receives a 401 re-enters the handler instead (see the C2 analysis). -/
theorem c6_refresh_success_replays_once (srv : Server) (st : Store)
    (fuel : Nat) (rt a2 : String) (hr : st.refresh = some rt)
    (hne : rt ≠ "")
    (h401 : srv.reqResp 0 (attachAuth st none) = .httpError 401)
    (hrf : srv.refreshResp 0 rt = some a2)
    (hreplay : srv.reqResp 1 (some ("Bearer " ++ a2)) ≠ .httpError 401) :
    runRequest srv (fuel + 2) st =
      some (passThroughOutcome (srv.reqResp 1 (some ("Bearer " ++ a2))),
        refreshSuccessStore st a2,
        ⟨1, [attachAuth st none, some ("Bearer " ++ a2)], false⟩) ∧
    (refreshSuccessStore st a2).access = some a2 := by
  refine ⟨?_, rfl⟩
  rcases hcase : srv.reqResp 1 (some ("Bearer " ++ a2)) with b | s | _
  · simp [runRequest, runAux, h401, hr, hne, hrf, hcase,
      attachAuth_refreshSuccess, passThroughOutcome]
  · have hs : s ≠ 401 := fun h => hreplay (h ▸ hcase)
    simp [runRequest, runAux, h401, hr, hne, hrf, hcase, hs,
      attachAuth_refreshSuccess, passThroughOutcome]
  · simp [runRequest, runAux, h401, hr, hne, hrf, hcase,
      attachAuth_refreshSuccess, passThroughOutcome]

/-- C6 amended, witnessed against srvOne401 from a full session: the
replay carries Bearer A2, the store holds A2, the caller gets the replay
body. -/
theorem c6_refresh_success_replays_once_witness :
    (⟨some "A1", some "R1", some "u"⟩ : Store).refresh = some "R1" ∧
    ("R1" : String) ≠ "" ∧
    srvOne401.reqResp 0
      (attachAuth ⟨some "A1", some "R1", some "u"⟩ none) = .httpError 401 ∧
    srvOne401.refreshResp 0 "R1" = some "A2" ∧
    srvOne401.reqResp 1 (some ("Bearer " ++ "A2")) ≠ .httpError 401 ∧
    (runRequest srvOne401 2 ⟨some "A1", some "R1", some "u"⟩ =
      some (.ok "body1", ⟨some "A2", some "R1", some "u"⟩,
        ⟨1, [some "Bearer A1", some "Bearer A2"], false⟩) ∧
     (refreshSuccessStore ⟨some "A1", some "R1", some "u"⟩ "A2").access =
       some "A2") :=
  ⟨rfl, by decide, rfl, rfl, by decide,
    c6_refresh_success_replays_once srvOne401 ⟨some "A1", some "R1", some "u"⟩
      0 "R1" "A2" rfl (by decide) rfl rfl (by decide)⟩

/-- C7: a successful login, and a successful register, whose response
carries a user record, an access token and a refresh token stores exactly
those three fields as the session and reports success. -/
theorem c7_login_register_success_sets_session (st : Store)
    (u a r : String) :
    login st (.success u a r) = (⟨some a, some r, some u⟩, .ok) ∧
    register st (.success u a r) = (⟨some a, some r, some u⟩, .ok) :=
  ⟨rfl, rfl⟩

/-- C8: every failed login and register call leaves the session store
exactly as it was and returns a structured failure; the register branch
passes a field-keyed error body through as field-keyed data, and
degenerates to a general message only when the response carries no body. -/
theorem c8_auth_failure_leaves_store_unchanged (st : Store)
    (err : Option ErrResp) :
    login st (.failure err) = (st, .failed (.general (loginErrorMsg err))) ∧
    register st (.failure err) = (st, .failed (registerError err)) ∧
    (∀ (d : ErrData) (sx : Option String),
      registerError (some ⟨some d, sx⟩) = .data d) ∧
    (∀ sx : Option String,
      registerError (some ⟨none, sx⟩) =
        .general ((jsOrStr sx).getD "Registration failed")) :=
  ⟨rfl, rfl, fun _ _ => rfl, fun _ => rfl⟩

/-- C9: after any login followed by any sequence of authenticated calls
(each of which may read and rewrite the store through the interceptor),
logout leaves no access credential, no refresh credential and no user
record; indeed logout clears the store unconditionally from every state,
with no remote call involved. -/
theorem c9_logout_clears_session (u a r : String)
    (calls : List (Server × Nat)) :
    logout (calls.foldl (fun s c => storeAfterRun c.1 c.2 s)
      (login Store.empty (.success u a r)).1) = Store.empty ∧
    (∀ st : Store, logout st = Store.empty) :=
  ⟨rfl, fun _ => rfl⟩

/-- C10: a comment submission whose content trims to the empty string
returns before the network call: no request is issued and the component
state, the comment list included, is exactly what it was. -/
theorem c10_empty_comment_rejected (st : PostDetailState)
    (resp : Except Unit String) (h : jsTrim st.commentText = "") :
    handleCommentSubmit st resp = (st, false) := by
  simp [handleCommentSubmit, h]

/-- C10, witnessed on whitespace-only input with a server that would
accept the comment. -/
theorem c10_empty_comment_rejected_witness :
    jsTrim (⟨["c0"], "   ", false, "", ""⟩ : PostDetailState).commentText
      = "" ∧
    handleCommentSubmit ⟨["c0"], "   ", false, "", ""⟩ (.ok "new") =
      (⟨["c0"], "   ", false, "", ""⟩, false) :=
  ⟨by decide, c10_empty_comment_rejected ⟨["c0"], "   ", false, "", ""⟩
    (.ok "new") (by decide)⟩

end Blog
